import Mathlib

/-!
Verification development for the iot-greengrass-pipeline repository.

The pipeline's numeric values are Python floats; this embedding models them
as exact rationals (`ℚ`), so all arithmetic is the real-number arithmetic the
spec's formulas describe.  JSON scalar values and objects are modelled by the
`JValue` inductive; Python dicts by association lists with first-match lookup
(keys of a decoded JSON object are unique, so this coincides with dict
semantics).
-/

/-- A JSON value as it appears in a decoded MQTT payload: null, booleans,
numbers (exact rationals standing for Python floats), strings, and objects
(association lists of fields). -/
inductive JValue where
  | null : JValue
  | bool (b : Bool) : JValue
  | num (q : ℚ) : JValue
  | str (s : String) : JValue
  | obj (kvs : List (String × JValue)) : JValue

/-- A decoded JSON object / Python dict: named fields with JSON values. -/
abbrev Event := List (String × JValue)

/-- Python `dict.get(k)`: the value of the first matching key, else `None`. -/
def eventGet : Event → String → Option JValue
  | [], _ => none
  | kv :: rest, k => if kv.1 = k then some kv.2 else eventGet rest k

/-- Python truthiness (`bool(v)`) of a JSON value: `None` and `False` are
falsy, numbers are truthy iff nonzero, strings iff nonempty, dicts iff
nonempty. -/
def truthy : JValue → Bool
  | .null => false
  | .bool b => b
  | .num q => q != 0
  | .str s => s != ""
  | .obj kvs => !kvs.isEmpty

/-- The natural number denoted by a list of decimal digit characters. -/
def natOfDigits (cs : List Char) : ℕ :=
  cs.foldl (fun n c => 10 * n + (c.toNat - 48)) 0

/-- Whether every character of the list is a decimal digit. -/
def allDigits (cs : List Char) : Bool :=
  cs.all Char.isDigit

/-- An optionally signed decimal integer (the exponent part of a Python float
literal). -/
def parseSignedDigits : List Char → Option ℤ
  | '+' :: rest =>
      if !rest.isEmpty && allDigits rest then some (natOfDigits rest : ℤ) else none
  | '-' :: rest =>
      if !rest.isEmpty && allDigits rest then some (-(natOfDigits rest : ℤ)) else none
  | rest =>
      if !rest.isEmpty && allDigits rest then some (natOfDigits rest : ℤ) else none

/-- Split a character list at every occurrence of `sep`. -/
def splitOnChar (sep : Char) : List Char → List (List Char)
  | [] => [[]]
  | c :: rest =>
      let r := splitOnChar sep rest
      if c == sep then [] :: r
      else
        match r with
        | [] => [[c]]
        | g :: gs => (c :: g) :: gs

/-- The mantissa of a Python float literal: digits with an optional decimal
point (`"12"`, `"12.5"`, `"12."`, `".5"`). -/
def parseMantissa (cs : List Char) : Option ℚ :=
  match splitOnChar '.' cs with
  | [ipart] =>
      if !ipart.isEmpty && allDigits ipart then some (natOfDigits ipart : ℚ) else none
  | [ipart, fpart] =>
      if (!ipart.isEmpty || !fpart.isEmpty) && allDigits ipart && allDigits fpart then
        some ((natOfDigits ipart : ℚ) + (natOfDigits fpart : ℚ) / (10 : ℚ) ^ fpart.length)
      else none
  | _ => none

/-- An unsigned Python float literal: a mantissa with an optional exponent. -/
def parseUnsignedFloat (cs : List Char) : Option ℚ :=
  match splitOnChar 'e' cs with
  | [m] => parseMantissa m
  | [m, e] =>
      match parseMantissa m, parseSignedDigits e with
      | some mv, some ev => some (mv * (10 : ℚ) ^ ev)
      | _, _ => none
  | _ => none

/-- Whether a character is whitespace that Python's `float(str)` strips. -/
def isPySpace (c : Char) : Bool :=
  c == ' ' || c == '\t' || c == '\n' || c == '\r' || c == '\x0b' || c == '\x0c'

/-- Python `float(s)` on a string: strip whitespace, lower the case, parse an
optionally signed decimal float literal; `none` when the string is not such a
literal (the non-finite literals `inf`/`nan` are outside this rational
model). -/
def parsePyFloat (s : String) : Option ℚ :=
  let cs := ((s.toList.map Char.toLower).dropWhile isPySpace).reverse
  let cs := (cs.dropWhile isPySpace).reverse
  match cs with
  | '+' :: rest => parseUnsignedFloat rest
  | '-' :: rest => (parseUnsignedFloat rest).map Neg.neg
  | rest => parseUnsignedFloat rest

/-- Python `float(v)` on a JSON value: numbers are themselves, booleans are
0/1, strings are parsed, `None` and dicts raise (`none` here). -/
def pyFloat : JValue → Option ℚ
  | .num q => some q
  | .str s => parsePyFloat s
  | .bool b => some (cond b 1 0)
  | .null => none
  | .obj _ => none

/-- `EmissionProcessor._safe_float`: `float(value)` with every failure
(absent key, `None`, unparsable string, non-numeric type) absorbed into
`0.0`. -/
def safe_float (v : Option JValue) : ℚ :=
  (v.bind pyFloat).getD 0

/-- `EmissionProcessor` from process_emission.py: the three warning
thresholds, with the constructor's default values. -/
structure EmissionProcessor where
  co2_warn_threshold : ℚ := 8000
  co_warn_threshold : ℚ := 200
  nox_warn_threshold : ℚ := 5

/-- The record returned by `EmissionProcessor.process` (field order as the
source builds the result dict). -/
structure ProcessedRecord where
  vehicle_id : JValue
  timestep_time : Option JValue
  vehicle_CO : ℚ
  vehicle_CO2 : ℚ
  vehicle_NOx : ℚ
  vehicle_PMx : ℚ
  vehicle_speed : ℚ
  co2_status : String
  co_status : String
  nox_status : String
  emission_score : ℚ

/-- `EmissionProcessor.process`: extract fields with defaults, compute the
three status flags and the weighted emission score, and assemble the result
record. -/
def EmissionProcessor.process (self : EmissionProcessor) (event : Event) : ProcessedRecord :=
  let timestep := eventGet event "timestep_time"
  let vehicle_id :=
    match eventGet event "vehicle_id" with
    | some v => if truthy v then v else JValue.str "unknown"
    | none => JValue.str "unknown"
  let co := safe_float (eventGet event "vehicle_CO")
  let co2 := safe_float (eventGet event "vehicle_CO2")
  let nox := safe_float (eventGet event "vehicle_NOx")
  let pmx := safe_float (eventGet event "vehicle_PMx")
  let speed := safe_float (eventGet event "vehicle_speed")
  let co2_status := if co2 ≥ self.co2_warn_threshold then "HIGH" else "OK"
  let co_status := if co ≥ self.co_warn_threshold then "HIGH" else "OK"
  let nox_status := if nox ≥ self.nox_warn_threshold then "HIGH" else "OK"
  let emission_score := co * 0.3 + co2 * 0.0005 + nox * 1.0 + pmx * 5.0
  ⟨vehicle_id, timestep, co, co2, nox, pmx, speed, co2_status, co_status, nox_status,
    emission_score⟩

/-- The module-level `_processor = EmissionProcessor()` (default thresholds). -/
def processorDefault : EmissionProcessor := {}

/-- `lambda_handler(event, context)`: delegates to the default processor (the
unused `context` argument is dropped). -/
def lambda_handler (event : Event) : ProcessedRecord :=
  processorDefault.process event

/-- The spec's end-to-end scenario input event. -/
def scenarioEvent : Event :=
  [("vehicle_id", JValue.str "car-3"), ("vehicle_CO2", JValue.str "9000"),
   ("vehicle_CO", JValue.str "50"), ("vehicle_NOx", JValue.str "2")]

/-- Render a rational under the exact-rational model of Python floats:
integers as Python float repr would (`9000.0`), non-integers as an exact
fraction (the shortest-decimal repr of IEEE doubles is outside this model). -/
def renderQ (q : ℚ) : String :=
  if q.den == 1 then toString q.num ++ ".0" else toString q.num ++ "/" ++ toString q.den

/-- Escape one character for a JSON string literal (quotes and backslashes;
control-character escapes are outside the claims' scope). -/
def escapeChar (c : Char) : String :=
  if c == '"' then "\\\"" else if c == '\\' then "\\\\" else String.singleton c

/-- A JSON string literal. -/
def renderJString (s : String) : String :=
  "\"" ++ String.join (s.toList.map escapeChar) ++ "\""

mutual

/-- `json.dumps` of a JSON value (default separators `", "` and `": "`,
insertion order preserved). -/
def serializeJValue : JValue → String
  | .null => "null"
  | .bool b => cond b "true" "false"
  | .num q => renderQ q
  | .str s => renderJString s
  | .obj kvs => "\x7b" ++ serializeMembers kvs ++ "\x7d"

/-- The members of a serialized JSON object, comma-separated. -/
def serializeMembers : List (String × JValue) → String
  | [] => ""
  | [kv] => renderJString kv.1 ++ ": " ++ serializeJValue kv.2
  | kv :: rest =>
      renderJString kv.1 ++ ": " ++ serializeJValue kv.2 ++ ", " ++ serializeMembers rest

end

/-- Python `str(v)` as used by the f-string building the output topic:
strings unquoted, `None`/`True`/`False` in Python spelling, numbers under
the rational model; a dict identifier is approximated by its JSON form. -/
def pyStr : JValue → String
  | .str s => s
  | .num q => renderQ q
  | .bool b => cond b "True" "False"
  | .null => "None"
  | .obj kvs => serializeJValue (.obj kvs)

/-- `json.dumps(result)` in handle_vehicle_message: the processed record
serialized with its fields in the insertion order of process_emission.py
(an absent `timestep_time` is `None`, serialized as `null`). -/
def serializeRecord (r : ProcessedRecord) : String :=
  "\x7b" ++
  "\"vehicle_id\": " ++ serializeJValue r.vehicle_id ++ ", " ++
  "\"timestep_time\": " ++ (match r.timestep_time with
    | none => "null"
    | some v => serializeJValue v) ++ ", " ++
  "\"vehicle_CO\": " ++ renderQ r.vehicle_CO ++ ", " ++
  "\"vehicle_CO2\": " ++ renderQ r.vehicle_CO2 ++ ", " ++
  "\"vehicle_NOx\": " ++ renderQ r.vehicle_NOx ++ ", " ++
  "\"vehicle_PMx\": " ++ renderQ r.vehicle_PMx ++ ", " ++
  "\"vehicle_speed\": " ++ renderQ r.vehicle_speed ++ ", " ++
  "\"co2_status\": " ++ renderJString r.co2_status ++ ", " ++
  "\"co_status\": " ++ renderJString r.co_status ++ ", " ++
  "\"nox_status\": " ++ renderJString r.nox_status ++ ", " ++
  "\"emission_score\": " ++ renderQ r.emission_score ++ "\x7d"

/-- `OUTPUT_TOPIC_PREFIX` of main-mqtt.py (renamed for this file): the fixed
head of every live output topic name. -/
def OUTPUT_TOPIC_PRE : String := "iot/Vehicle_"

/-- `INPUT_TOPIC` of main-mqtt.py. -/
def INPUT_TOPIC : String := "vehicle/emission/data"

/-- `FIREHOSE_STREAM_NAME` of main-mqtt.py. -/
def FIREHOSE_STREAM_NAME : String := "lab4-vehicle-emissions-stream"

/-- `configure_firehose_client` of main-mqtt.py: the try block's
`boto3.client(...)` call raises `NameError` at runtime because main-mqtt.py
never imports boto3, the except logs and returns `None` — so the Firehose
client of this program is always `None`. -/
def configure_firehose_client : Option Unit := none

/-- How the two sink transports behave for one record's delivery: whether
`mqtt_client.publish` raises and whether `firehose_client.put_record`
raises. -/
structure SinkBehavior where
  mqttPublishRaises : Bool
  firehoseRaises : Bool

/-- What one invocation of handle_vehicle_message (or of the subscribe
callback wrapping it) did: records produced by the evaluator, delivery
attempts and payloads per sink, decode failures, and whether an exception
escaped. -/
structure HandleTrace where
  processedRecords : ℕ
  mqttAttempts : ℕ
  mqttTopic : Option String
  mqttPayload : Option String
  mqttDelivered : Bool
  firehoseAttempts : ℕ
  firehoseData : Option String
  firehoseDelivered : Bool
  decodeErrors : ℕ
  raised : Bool

/-- The trace of an invocation that produced and delivered nothing. -/
def emptyTrace : HandleTrace :=
  ⟨0, 0, none, none, false, 0, none, false, 0, false⟩

/-- A JSON value that is a dict, as its association list. -/
def asObj : JValue → Option Event
  | .obj kvs => some kvs
  | _ => none

/-- The dict handed to the evaluator by handle_vehicle_message: the decoded
message must be a dict, and `event.get("data", event)` unwraps a nested
payload; `none` when either `.get` call would raise (non-dict), in which
case the outer try swallows the exception. -/
def payloadObj (decoded : JValue) : Option Event :=
  match asObj decoded with
  | none => none
  | some ev => asObj ((eventGet ev "data").getD decoded)

/-- `handle_vehicle_message` of main-mqtt.py: evaluate the payload, publish
the serialized result to `iot/Vehicle_<vehicle_id>` over MQTT, then — only
if that did not raise and a Firehose client exists — append the same JSON
plus a newline to the Firehose stream, any Firehose failure being caught by
the inner try; every other exception is caught by the outer try. -/
def handle_vehicle_message (firehoseAvailable : Bool) (b : SinkBehavior)
    (decoded : JValue) : HandleTrace :=
  match payloadObj decoded with
  | none => emptyTrace
  | some payload =>
    let result := lambda_handler payload
    let vid :=
      if truthy result.vehicle_id then result.vehicle_id
      else
        match eventGet payload "vehicle_id" with
        | some v => if truthy v then v else JValue.str "unknown"
        | none => JValue.str "unknown"
    let output_topic := OUTPUT_TOPIC_PRE ++ pyStr vid
    let result_json := serializeRecord result
    if b.mqttPublishRaises then
      ⟨1, 1, some output_topic, some result_json, false, 0, none, false, 0, false⟩
    else if firehoseAvailable then
      ⟨1, 1, some output_topic, some result_json, true, 1, some (result_json ++ "\n"),
        !b.firehoseRaises, 0, false⟩
    else
      ⟨1, 1, some output_topic, some result_json, true, 0, none, false, 0, false⟩

/-- An inbound MQTT message's payload, abstracted by the outcome of
`message.payload.decode("utf-8")` followed by `json.loads`: either the
decoded JSON value, or malformed (either step raises). -/
inductive Payload where
  | wellFormed (j : JValue) : Payload
  | malformed : Payload

/-- The trace of the callback on a malformed payload: the decode failure is
logged and the callback returns. -/
def droppedTrace : HandleTrace :=
  ⟨0, 0, none, none, false, 0, none, false, 1, false⟩

/-- `on_message_callback` of main-mqtt.py: decode and parse the payload
inside a try — on failure log and return; otherwise hand the event to
handle_vehicle_message. -/
def on_message_callback (firehoseAvailable : Bool) (b : SinkBehavior)
    (p : Payload) : HandleTrace :=
  match p with
  | .malformed => droppedTrace
  | .wellFormed j => handle_vehicle_message firehoseAvailable b j

/-- The subscriber's processing of a stream of inbound messages: the
callback never raises and never unsubscribes, so each message is handled
independently in arrival order. -/
def runSubscriber (firehoseAvailable : Bool) (b : SinkBehavior)
    (msgs : List Payload) : List HandleTrace :=
  msgs.map (on_message_callback firehoseAvailable b)

/-- One observable step of a publishing round: an MQTT/HTTP publish of a
serialized row, or the fixed pacing sleep (`time.sleep(0.2)`). -/
inductive PubAction where
  | publish (topic : String) (payload : String) : PubAction
  | sleep (seconds : ℚ) : PubAction

/-- A device of the MQTT fleet simulator (vehicle-data/lab4_emulator_client.py):
its numeric id 1..10. -/
structure MQTTClient where
  numeric_id : ℕ

/-- `self.device_id`: the Thing name / MQTT client id. -/
def MQTTClient.device_id (c : MQTTClient) : String :=
  "lab4-car-" ++ toString c.numeric_id

/-- `MQTTClient.publish` of vehicle-data/lab4_emulator_client.py: raise
`FileNotFoundError` when the device's CSV is missing (`dataset = none`),
else publish every row in file order as JSON, sleeping 0.2 s after each.
The dataset argument stands for `os.path.exists` + `pd.read_csv` on
`vehicle-data/vehicle<numeric_id>.csv`. -/
def MQTTClient.publish (c : MQTTClient) (dataset : Option (List Event))
    (topic : String) : Except String (List PubAction) :=
  match dataset with
  | none =>
      Except.error ("Missing CSV file: vehicle-data/vehicle" ++ toString c.numeric_id ++ ".csv")
  | some rows =>
      Except.ok (rows.flatMap fun row =>
        [PubAction.publish topic (serializeJValue (.obj row)), PubAction.sleep 0.2])

/-- The `'s'` command of the MQTT simulator's main loop:
`for c in clients: c.publish()` with no try — the first device whose publish
raises aborts the whole round, and later devices are never reached. -/
def sendRound (datasets : ℕ → Option (List Event)) :
    List MQTTClient → Except String (List (String × List PubAction))
  | [] => Except.ok []
  | c :: rest =>
    match c.publish (datasets c.numeric_id) INPUT_TOPIC with
    | Except.error e => Except.error e
    | Except.ok acts =>
      match sendRound datasets rest with
      | Except.error e => Except.error e
      | Except.ok others => Except.ok ((c.device_id, acts) :: others)

/-- `publish_car_data` of lab4_emulator_client.py (the HTTPS publisher): a
missing CSV prints a warning and returns (no publishes); otherwise every row
is wrapped as `{"device_id": ..., "data": row}` and published in file order,
sleeping 0.2 s after each. -/
def publish_car_data (dataset : Option (List Event)) (car_id : ℕ) : List PubAction :=
  match dataset with
  | none => []
  | some rows =>
      rows.flatMap fun row =>
        [PubAction.publish INPUT_TOPIC
          (serializeJValue (.obj
            [("device_id", JValue.str ("lab4-car-" ++ toString car_id)), ("data", .obj row)])),
         PubAction.sleep 0.2]

/-- The `'s'` command of the HTTPS publisher's main loop: publish every
car's data in turn, car ids 1..10; a car's missing dataset never aborts the
loop. -/
def sendAllCars (datasets : ℕ → Option (List Event)) : List (ℕ × List PubAction) :=
  (List.range' 1 10).map fun i => (i, publish_car_data (datasets i) i)

/-- The rows published by a list of actions, in order. -/
def publishedPayloads (acts : List PubAction) : List String :=
  acts.filterMap fun a =>
    match a with
    | .publish _ p => some p
    | .sleep _ => none

/-- Whether a round of actions is paced: each publish is immediately
followed by one sleep of `d` seconds. -/
def isPacedBy (d : ℚ) : List PubAction → Bool
  | [] => true
  | PubAction.publish _ _ :: PubAction.sleep d2 :: rest =>
      if d2 = d then isPacedBy d rest else false
  | _ => false

/-- A minimal well-formed decoded inbound event. -/
def eCar1 : JValue := JValue.obj [("vehicle_id", JValue.str "car-1")]

/-- The payload dict of `eCar1`. -/
def eCar1Payload : Event := [("vehicle_id", JValue.str "car-1")]

/-- An event whose numeric pollutant fields are absent or not coercible. -/
def evBadNumerics : Event :=
  [("vehicle_CO", JValue.str "abc"), ("vehicle_NOx", JValue.null),
   ("vehicle_PMx", JValue.bool false), ("vehicle_id", JValue.str "car-9")]

/-- An event whose `vehicle_id` is the empty string (falsy but present). -/
def evEmptyId : Event :=
  [("vehicle_id", JValue.str ""), ("vehicle_CO", JValue.num 3)]

/-- A fleet dataset map where device 2's CSV is missing and every other
device has one single-row dataset. -/
def missingDs : ℕ → Option (List Event) := fun n =>
  if n = 2 then none else some [[("vehicle_id", JValue.str "car")]]

example : safe_float (eventGet scenarioEvent "vehicle_CO2") = 9000 := rfl
example : safe_float (eventGet scenarioEvent "vehicle_CO") = 50 := rfl
example : safe_float (eventGet scenarioEvent "vehicle_PMx") = 0 := rfl
example : (lambda_handler scenarioEvent).emission_score = 21.5 := by
  show safe_float (eventGet scenarioEvent "vehicle_CO") * 0.3 +
      safe_float (eventGet scenarioEvent "vehicle_CO2") * 0.0005 +
      safe_float (eventGet scenarioEvent "vehicle_NOx") * 1.0 +
      safe_float (eventGet scenarioEvent "vehicle_PMx") * 5.0 = 21.5
  have h1 : safe_float (eventGet scenarioEvent "vehicle_CO") = 50 := rfl
  have h2 : safe_float (eventGet scenarioEvent "vehicle_CO2") = 9000 := rfl
  have h3 : safe_float (eventGet scenarioEvent "vehicle_NOx") = 2 := rfl
  have h4 : safe_float (eventGet scenarioEvent "vehicle_PMx") = 0 := rfl
  rw [h1, h2, h3, h4]; norm_num
example : (lambda_handler scenarioEvent).co2_status = "HIGH" := by
  show (if safe_float (eventGet scenarioEvent "vehicle_CO2") ≥ (8000 : ℚ) then "HIGH" else "OK") = "HIGH"
  have h2 : safe_float (eventGet scenarioEvent "vehicle_CO2") = 9000 := rfl
  rw [h2]; norm_num
example : parsePyFloat "abc" = none := rfl
example : parsePyFloat "" = none := rfl
example : parsePyFloat " 12 " = some 12 := rfl

/-- Helper: an `if _ then "HIGH" else "OK"` flag is `"HIGH"` iff the guard
holds and `"OK"` iff it does not. -/
theorem ite_high_ok (c : Prop) [Decidable c] :
    ((if c then "HIGH" else "OK") = "HIGH" ↔ c) ∧
    ((if c then "HIGH" else "OK") = "OK" ↔ ¬c) := by
  by_cases h : c
  · rw [if_pos h]
    exact ⟨⟨fun _ => h, fun _ => rfl⟩,
      ⟨fun hs => absurd hs (by decide), fun hc => absurd h hc⟩⟩
  · rw [if_neg h]
    exact ⟨⟨fun hs => absurd hs (by decide), fun hc => absurd hc h⟩,
      ⟨fun _ => h, fun _ => rfl⟩⟩

/-- C1: for every telemetry event, each per-pollutant status flag is
`"HIGH"` exactly when the coerced reading is ≥ its threshold and `"OK"`
exactly when it is below, and the default processor's thresholds are
CO2 8000, CO 200, NOx 5 — so a reading equal to the threshold is
`"HIGH"`. -/
theorem process_status_flags (p : EmissionProcessor) (ev : Event) :
    ((p.process ev).co2_status = "HIGH" ↔
      safe_float (eventGet ev "vehicle_CO2") ≥ p.co2_warn_threshold) ∧
    ((p.process ev).co2_status = "OK" ↔
      ¬ safe_float (eventGet ev "vehicle_CO2") ≥ p.co2_warn_threshold) ∧
    ((p.process ev).co_status = "HIGH" ↔
      safe_float (eventGet ev "vehicle_CO") ≥ p.co_warn_threshold) ∧
    ((p.process ev).co_status = "OK" ↔
      ¬ safe_float (eventGet ev "vehicle_CO") ≥ p.co_warn_threshold) ∧
    ((p.process ev).nox_status = "HIGH" ↔
      safe_float (eventGet ev "vehicle_NOx") ≥ p.nox_warn_threshold) ∧
    ((p.process ev).nox_status = "OK" ↔
      ¬ safe_float (eventGet ev "vehicle_NOx") ≥ p.nox_warn_threshold) ∧
    processorDefault.co2_warn_threshold = 8000 ∧
    processorDefault.co_warn_threshold = 200 ∧
    processorDefault.nox_warn_threshold = 5 :=
  ⟨(ite_high_ok _).1, (ite_high_ok _).2, (ite_high_ok _).1, (ite_high_ok _).2,
   (ite_high_ok _).1, (ite_high_ok _).2, rfl, rfl, rfl⟩

/-- C2: the emission score is the weighted linear combination
`0.3*CO + 0.0005*CO2 + 1.0*NOx + 5.0*PMx` of the coerced readings, and on
the spec's end-to-end scenario event the output has `vehicle_id` "car-3",
`co2_status` "HIGH", `co_status` "OK", `nox_status` "OK" and score 21.5. -/
theorem emission_score_formula_and_scenario :
    (∀ (p : EmissionProcessor) (ev : Event),
      (p.process ev).emission_score =
        0.3 * safe_float (eventGet ev "vehicle_CO") +
        0.0005 * safe_float (eventGet ev "vehicle_CO2") +
        1.0 * safe_float (eventGet ev "vehicle_NOx") +
        5.0 * safe_float (eventGet ev "vehicle_PMx")) ∧
    (lambda_handler scenarioEvent).vehicle_id = JValue.str "car-3" ∧
    (lambda_handler scenarioEvent).co2_status = "HIGH" ∧
    (lambda_handler scenarioEvent).co_status = "OK" ∧
    (lambda_handler scenarioEvent).nox_status = "OK" ∧
    (lambda_handler scenarioEvent).emission_score = 21.5 := by
  refine ⟨?_, rfl, ?_, ?_, ?_, ?_⟩
  · intro p ev
    show safe_float (eventGet ev "vehicle_CO") * 0.3 +
        safe_float (eventGet ev "vehicle_CO2") * 0.0005 +
        safe_float (eventGet ev "vehicle_NOx") * 1.0 +
        safe_float (eventGet ev "vehicle_PMx") * 5.0 = _
    ring
  · show (if safe_float (eventGet scenarioEvent "vehicle_CO2") ≥ (8000 : ℚ)
        then "HIGH" else "OK") = "HIGH"
    have h : safe_float (eventGet scenarioEvent "vehicle_CO2") = 9000 := rfl
    rw [h]; norm_num
  · show (if safe_float (eventGet scenarioEvent "vehicle_CO") ≥ (200 : ℚ)
        then "HIGH" else "OK") = "OK"
    have h : safe_float (eventGet scenarioEvent "vehicle_CO") = 50 := rfl
    rw [h]; norm_num
  · show (if safe_float (eventGet scenarioEvent "vehicle_NOx") ≥ (5 : ℚ)
        then "HIGH" else "OK") = "OK"
    have h : safe_float (eventGet scenarioEvent "vehicle_NOx") = 2 := rfl
    rw [h]; norm_num
  · show safe_float (eventGet scenarioEvent "vehicle_CO") * 0.3 +
        safe_float (eventGet scenarioEvent "vehicle_CO2") * 0.0005 +
        safe_float (eventGet scenarioEvent "vehicle_NOx") * 1.0 +
        safe_float (eventGet scenarioEvent "vehicle_PMx") * 5.0 = 21.5
    have h1 : safe_float (eventGet scenarioEvent "vehicle_CO") = 50 := rfl
    have h2 : safe_float (eventGet scenarioEvent "vehicle_CO2") = 9000 := rfl
    have h3 : safe_float (eventGet scenarioEvent "vehicle_NOx") = 2 := rfl
    have h4 : safe_float (eventGet scenarioEvent "vehicle_PMx") = 0 := rfl
    rw [h1, h2, h3, h4]; norm_num

/-- C3: every numeric field that is absent or not coercible to a number is
treated as 0.0 in the evaluator's output; the evaluator is a total function
on event dicts (no exception can escape — `safe_float` absorbs every
coercion failure). -/
theorem missing_or_invalid_numeric_defaults (p : EmissionProcessor) (ev : Event) :
    ((eventGet ev "vehicle_CO").bind pyFloat = none → (p.process ev).vehicle_CO = 0) ∧
    ((eventGet ev "vehicle_CO2").bind pyFloat = none → (p.process ev).vehicle_CO2 = 0) ∧
    ((eventGet ev "vehicle_NOx").bind pyFloat = none → (p.process ev).vehicle_NOx = 0) ∧
    ((eventGet ev "vehicle_PMx").bind pyFloat = none → (p.process ev).vehicle_PMx = 0) ∧
    ((eventGet ev "vehicle_speed").bind pyFloat = none → (p.process ev).vehicle_speed = 0) := by
  refine ⟨fun h => ?_, fun h => ?_, fun h => ?_, fun h => ?_, fun h => ?_⟩ <;>
    simp only [EmissionProcessor.process, safe_float, h, Option.getD_none]

/-- C3 check at a concrete input: evaluating `evBadNumerics` (unparsable CO,
null NOx, absent CO2/PMx-coercible-bool/speed) yields zero readings. -/
theorem missing_or_invalid_numeric_defaults_witness :
    (processorDefault.process evBadNumerics).vehicle_CO = 0 ∧
    (processorDefault.process evBadNumerics).vehicle_CO2 = 0 ∧
    (processorDefault.process evBadNumerics).vehicle_NOx = 0 ∧
    (processorDefault.process evBadNumerics).vehicle_speed = 0 := by
  have t := missing_or_invalid_numeric_defaults processorDefault evBadNumerics
  exact ⟨t.1 rfl, t.2.1 rfl, t.2.2.1 rfl, t.2.2.2.2 rfl⟩

/-- Helper: filtering out one key leaves lookups of every other key
unchanged. -/
theorem eventGet_filterKey (ev : Event) (k bad : String) (hk : k ≠ bad) :
    eventGet (ev.filter fun kv => kv.1 != bad) k = eventGet ev k := by
  induction ev with
  | nil => rfl
  | cons kv rest ih =>
      by_cases h1 : kv.1 = bad
      · have hf : (kv.1 != bad) = false := by simp [h1]
        have hne : ¬ kv.1 = k := fun hkk => hk (hkk ▸ h1)
        simp [List.filter_cons, hf, eventGet, hne, ih]
      · have hf : (kv.1 != bad) = true := by simp [h1]
        by_cases h2 : kv.1 = k
        · simp [List.filter_cons, hf, eventGet, h2, hk]
        · simp [List.filter_cons, hf, eventGet, h2, ih]

/-- Helper: after filtering out a key, looking it up yields nothing. -/
theorem eventGet_filterKey_self (ev : Event) (bad : String) :
    eventGet (ev.filter fun kv => kv.1 != bad) bad = none := by
  induction ev with
  | nil => rfl
  | cons kv rest ih =>
      by_cases h1 : kv.1 = bad
      · have hf : (kv.1 != bad) = false := by simp [h1]
        simp [List.filter_cons, hf, ih]
      · have hf : (kv.1 != bad) = true := by simp [h1]
        simp [List.filter_cons, hf, eventGet, h1, ih]

/-- C10: whenever the `vehicle_id` field is absent or holds any falsy value
(`None`, `""`, `0`, `False`, an empty dict), the evaluator's output has the
sentinel `vehicle_id = "unknown"`, and the whole output record is the same
as for the event with the `vehicle_id` field removed — a falsy identifier is
indistinguishable from a missing one at the evaluator's interface. -/
theorem falsy_vehicle_id_unknown (p : EmissionProcessor) (ev : Event)
    (h : eventGet ev "vehicle_id" = none ∨
      ∃ v, eventGet ev "vehicle_id" = some v ∧ truthy v = false) :
    (p.process ev).vehicle_id = JValue.str "unknown" ∧
    p.process ev = p.process (ev.filter fun kv => kv.1 != "vehicle_id") := by
  have hts := eventGet_filterKey ev "timestep_time" "vehicle_id" (by decide)
  have hco := eventGet_filterKey ev "vehicle_CO" "vehicle_id" (by decide)
  have hco2 := eventGet_filterKey ev "vehicle_CO2" "vehicle_id" (by decide)
  have hnox := eventGet_filterKey ev "vehicle_NOx" "vehicle_id" (by decide)
  have hpmx := eventGet_filterKey ev "vehicle_PMx" "vehicle_id" (by decide)
  have hspd := eventGet_filterKey ev "vehicle_speed" "vehicle_id" (by decide)
  have hself := eventGet_filterKey_self ev "vehicle_id"
  have hvid : (match eventGet ev "vehicle_id" with
      | some v => if truthy v then v else JValue.str "unknown"
      | none => JValue.str "unknown") = JValue.str "unknown" := by
    rcases h with h0 | ⟨v, hv, htv⟩
    · rw [h0]
    · rw [hv]; simp [htv]
  constructor
  · show (match eventGet ev "vehicle_id" with
      | some v => if truthy v then v else JValue.str "unknown"
      | none => JValue.str "unknown") = JValue.str "unknown"
    exact hvid
  · simp only [EmissionProcessor.process, hts, hco, hco2, hnox, hpmx, hspd, hself, hvid]

/-- C10 check at a concrete input: an empty-string `vehicle_id` yields the
sentinel and the same record as dropping the field. -/
theorem falsy_vehicle_id_unknown_witness :
    (processorDefault.process evEmptyId).vehicle_id = JValue.str "unknown" ∧
    processorDefault.process evEmptyId =
      processorDefault.process (evEmptyId.filter fun kv => kv.1 != "vehicle_id") :=
  falsy_vehicle_id_unknown processorDefault evEmptyId
    (Or.inr ⟨JValue.str "", rfl, rfl⟩)

/-- Helper: the evaluator's output `vehicle_id` is always truthy (either the
event's truthy identifier or the nonempty sentinel `"unknown"`), so the
handler's `or`-chain always takes the result's own identifier. -/
theorem truthy_process_vehicle_id (p : EmissionProcessor) (ev : Event) :
    truthy (p.process ev).vehicle_id = true := by
  show truthy (match eventGet ev "vehicle_id" with
    | some v => if truthy v then v else JValue.str "unknown"
    | none => JValue.str "unknown") = true
  cases hv : eventGet ev "vehicle_id" with
  | none => rfl
  | some v =>
      cases htv : truthy v with
      | false => simp [htv]; all_goals decide
      | true => simp [htv]

/-- C4 counterexample: with the Firehose client available and Firehose
healthy, a single MQTT publish failure on a well-formed event makes the
handler skip the Firehose append entirely (zero attempts) — refuting that a
live-topic publish failure never prevents the durable-stream append
attempt. -/
theorem mqtt_failure_skips_firehose_attempt :
    (handle_vehicle_message true ⟨true, false⟩ eCar1).processedRecords = 1 ∧
    (handle_vehicle_message true ⟨true, false⟩ eCar1).mqttAttempts = 1 ∧
    (handle_vehicle_message true ⟨true, false⟩ eCar1).mqttDelivered = false ∧
    (handle_vehicle_message true ⟨true, false⟩ eCar1).firehoseAttempts = 0 ∧
    (handle_vehicle_message true ⟨true, false⟩ eCar1).raised = false :=
  ⟨rfl, rfl, rfl, rfl, rfl⟩

/-- C4 amended: every successfully decoded event whose payload is a dict
yields exactly one processed record and exactly one live-topic publish
attempt, whose outcome is unaffected by Firehose behaviour, and no exception
escapes; the Firehose append is attempted exactly once when the client
exists and the MQTT publish did not raise, but an MQTT publish failure
skips the Firehose attempt (the sinks are written sequentially, not
independently). -/
theorem fanout_per_record_amended (fh : Bool) (b : SinkBehavior) (j : JValue)
    (pl : Event) (h : payloadObj j = some pl) :
    (handle_vehicle_message fh b j).processedRecords = 1 ∧
    (handle_vehicle_message fh b j).mqttAttempts = 1 ∧
    (handle_vehicle_message fh b j).mqttDelivered = !b.mqttPublishRaises ∧
    (handle_vehicle_message fh b j).raised = false ∧
    (b.mqttPublishRaises = false → fh = true →
      (handle_vehicle_message fh b j).firehoseAttempts = 1) ∧
    (b.mqttPublishRaises = true →
      (handle_vehicle_message fh b j).firehoseAttempts = 0) := by
  obtain ⟨m, f⟩ := b
  simp only [handle_vehicle_message, h]
  cases m <;> cases fh <;> simp

/-- C4 amended, checked at a concrete input: healthy sinks deliver one
record to both. -/
theorem fanout_per_record_amended_witness :
    (handle_vehicle_message true ⟨false, false⟩ eCar1).processedRecords = 1 ∧
    (handle_vehicle_message true ⟨false, false⟩ eCar1).mqttAttempts = 1 ∧
    (handle_vehicle_message true ⟨false, false⟩ eCar1).mqttDelivered = true ∧
    (handle_vehicle_message true ⟨false, false⟩ eCar1).raised = false ∧
    (false = false → true = true →
      (handle_vehicle_message true ⟨false, false⟩ eCar1).firehoseAttempts = 1) ∧
    (false = true →
      (handle_vehicle_message true ⟨false, false⟩ eCar1).firehoseAttempts = 0) :=
  fanout_per_record_amended true ⟨false, false⟩ eCar1 eCar1Payload rfl

/-- C5: a malformed (non-UTF-8-JSON) inbound payload is logged and dropped:
the callback produces zero processed records and zero sink attempts, raises
nothing, counts one decode error, and the subscriber handles the remaining
messages exactly as it would without the malformed one. -/
theorem malformed_payload_dropped (fh : Bool) (b : SinkBehavior)
    (rest : List Payload) :
    runSubscriber fh b (Payload.malformed :: rest) =
      droppedTrace :: runSubscriber fh b rest ∧
    droppedTrace.processedRecords = 0 ∧
    droppedTrace.mqttAttempts = 0 ∧
    droppedTrace.firehoseAttempts = 0 ∧
    droppedTrace.decodeErrors = 1 ∧
    droppedTrace.raised = false :=
  ⟨rfl, rfl, rfl, rfl, rfl, rfl⟩

/-- C8: the Firehose client of this program is `None` (boto3 is never
imported, so initialization fails and is absorbed); with the client absent
the handler skips the Firehose write without failing, still makes the one
live-topic publish attempt for every well-formed record, and completes
without error. -/
theorem firehose_none_skipped (b : SinkBehavior) (j : JValue) (pl : Event)
    (h : payloadObj j = some pl) :
    configure_firehose_client = none ∧
    (handle_vehicle_message configure_firehose_client.isSome b j).firehoseAttempts = 0 ∧
    (handle_vehicle_message configure_firehose_client.isSome b j).mqttAttempts = 1 ∧
    (handle_vehicle_message configure_firehose_client.isSome b j).raised = false ∧
    (b.mqttPublishRaises = false →
      (handle_vehicle_message configure_firehose_client.isSome b j).mqttDelivered = true) := by
  obtain ⟨m, f⟩ := b
  refine ⟨rfl, ?_, ?_, ?_, ?_⟩ <;>
    · simp only [handle_vehicle_message, h, configure_firehose_client, Option.isSome_none]
      cases m <;> simp

/-- C8 checked at a concrete input. -/
theorem firehose_none_skipped_witness :
    configure_firehose_client = none ∧
    (handle_vehicle_message configure_firehose_client.isSome ⟨false, false⟩ eCar1).firehoseAttempts = 0 ∧
    (handle_vehicle_message configure_firehose_client.isSome ⟨false, false⟩ eCar1).mqttAttempts = 1 ∧
    (handle_vehicle_message configure_firehose_client.isSome ⟨false, false⟩ eCar1).raised = false ∧
    (false = false →
      (handle_vehicle_message configure_firehose_client.isSome ⟨false, false⟩ eCar1).mqttDelivered = true) :=
  firehose_none_skipped ⟨false, false⟩ eCar1 eCar1Payload rfl

/-- C9: for every well-formed record, the live publish targets the topic
`"iot/Vehicle_" ++ <record identifier>` and carries the serialized record,
and the Firehose append payload is exactly that serialized record followed
by one newline. -/
theorem sink_payload_shapes (fh : Bool) (b : SinkBehavior) (j : JValue)
    (pl : Event) (h : payloadObj j = some pl) :
    (handle_vehicle_message fh b j).mqttTopic =
      some (OUTPUT_TOPIC_PRE ++ pyStr (lambda_handler pl).vehicle_id) ∧
    (handle_vehicle_message fh b j).mqttPayload =
      some (serializeRecord (lambda_handler pl)) ∧
    (fh = true → b.mqttPublishRaises = false →
      (handle_vehicle_message fh b j).firehoseData =
        some (serializeRecord (lambda_handler pl) ++ "\n")) := by
  obtain ⟨m, f⟩ := b
  simp only [handle_vehicle_message, h, lambda_handler,
    truthy_process_vehicle_id, if_true]
  cases m <;> cases fh <;> simp

/-- C9 checked at a concrete input. -/
theorem sink_payload_shapes_witness :
    (handle_vehicle_message true ⟨false, false⟩ eCar1).mqttTopic =
      some (OUTPUT_TOPIC_PRE ++ pyStr (lambda_handler eCar1Payload).vehicle_id) ∧
    (handle_vehicle_message true ⟨false, false⟩ eCar1).mqttPayload =
      some (serializeRecord (lambda_handler eCar1Payload)) ∧
    (true = true → false = false →
      (handle_vehicle_message true ⟨false, false⟩ eCar1).firehoseData =
        some (serializeRecord (lambda_handler eCar1Payload) ++ "\n")) :=
  sink_payload_shapes true ⟨false, false⟩ eCar1 eCar1Payload rfl

/-- Helper: a row queue — one publish per row, each immediately followed by
the fixed pacing sleep — publishes exactly the rows' payloads in order and
is paced. -/
theorem paced_queue_shape (f : Event → String) (t : String) (d : ℚ)
    (rows : List Event) :
    publishedPayloads (rows.flatMap fun row =>
        [PubAction.publish t (f row), PubAction.sleep d]) = rows.map f ∧
    isPacedBy d (rows.flatMap fun row =>
        [PubAction.publish t (f row), PubAction.sleep d]) = true := by
  induction rows with
  | nil => exact ⟨rfl, rfl⟩
  | cons r rest ih =>
      constructor
      · show f r :: publishedPayloads (rest.flatMap fun row =>
            [PubAction.publish t (f row), PubAction.sleep d]) = f r :: rest.map f
        exact congrArg (f r :: ·) ih.1
      · show (if d = d then isPacedBy d (rest.flatMap fun row =>
            [PubAction.publish t (f row), PubAction.sleep d]) else false) = true
        rw [if_pos rfl]
        exact ih.2

/-- C6: publishing a device's dataset of K rows sends exactly K messages,
one per row, in file order, each followed by the fixed 0.2 s inter-row
delay — both for the MQTT simulator's `MQTTClient.publish` and for the
HTTPS publisher's `publish_car_data`. -/
theorem publisher_sends_rows_in_order_paced (c : MQTTClient)
    (rows : List Event) (topic : String) (car_id : ℕ) :
    (∃ acts, c.publish (some rows) topic = Except.ok acts ∧
      publishedPayloads acts = rows.map (fun row => serializeJValue (.obj row)) ∧
      (publishedPayloads acts).length = rows.length ∧
      isPacedBy 0.2 acts = true) ∧
    (publishedPayloads (publish_car_data (some rows) car_id) =
      rows.map (fun row => serializeJValue (.obj
        [("device_id", JValue.str ("lab4-car-" ++ toString car_id)), ("data", .obj row)])) ∧
    (publishedPayloads (publish_car_data (some rows) car_id)).length = rows.length ∧
    isPacedBy 0.2 (publish_car_data (some rows) car_id) = true) := by
  have h1 := paced_queue_shape (fun row => serializeJValue (.obj row)) topic 0.2 rows
  have h2 := paced_queue_shape
    (fun row => serializeJValue (.obj
      [("device_id", JValue.str ("lab4-car-" ++ toString car_id)), ("data", .obj row)]))
    INPUT_TOPIC 0.2 rows
  refine ⟨⟨_, rfl, h1.1, ?_, h1.2⟩, h2.1, ?_, h2.2⟩
  · rw [h1.1, List.length_map]
  · show (publishedPayloads (rows.flatMap _)).length = rows.length
    rw [h2.1, List.length_map]

/-- C7 counterexample: in the MQTT fleet simulator, a publish round over
devices 2 and 3 with device 2's dataset missing raises `FileNotFoundError`
out of the round's `for` loop — the whole round aborts and device 3 is
never published, refuting that a missing dataset is skipped with a
warning. -/
theorem missing_dataset_aborts_mqtt_round :
    sendRound missingDs [⟨2⟩, ⟨3⟩] =
      Except.error "Missing CSV file: vehicle-data/vehicle2.csv" := rfl

/-- C7 amended: the HTTPS publisher (`publish_car_data`) skips a device
whose dataset file is missing with a warning and publishes nothing for it,
and its fleet round always visits all ten configured devices — every other
device's rows are still published; but the MQTT simulator's publish command
instead raises `FileNotFoundError` on a missing dataset, aborting that
fleet's publish round. -/
theorem missing_dataset_skipped_https_publisher (ds : ℕ → Option (List Event))
    (i : ℕ) (h1 : i ∈ List.range' 1 10) (h2 : ds i = none) :
    (sendAllCars ds).map Prod.fst = List.range' 1 10 ∧
    (i, ([] : List PubAction)) ∈ sendAllCars ds ∧
    (∀ k rows, k ∈ List.range' 1 10 → ds k = some rows →
      (k, publish_car_data (some rows) k) ∈ sendAllCars ds) := by
  refine ⟨rfl, ?_, ?_⟩
  · have h : (i, publish_car_data (ds i) i) ∈ sendAllCars ds :=
      List.mem_map_of_mem (fun n => (n, publish_car_data (ds n) n)) h1
    rw [h2] at h
    exact h
  · intro k rows hk hrows
    have h : (k, publish_car_data (ds k) k) ∈ sendAllCars ds :=
      List.mem_map_of_mem (fun n => (n, publish_car_data (ds n) n)) hk
    rw [hrows] at h
    exact h

/-- C7 amended, checked at a concrete input: with device 2's dataset
missing, the HTTPS round still yields all ten devices, device 2 publishing
nothing. -/
theorem missing_dataset_skipped_https_publisher_witness :
    (sendAllCars missingDs).map Prod.fst = List.range' 1 10 ∧
    (2, ([] : List PubAction)) ∈ sendAllCars missingDs ∧
    (∀ k rows, k ∈ List.range' 1 10 → missingDs k = some rows →
      (k, publish_car_data (some rows) k) ∈ sendAllCars missingDs) :=
  missing_dataset_skipped_https_publisher missingDs 2 (by decide) rfl
